import Mathlib

/-!
# Pipeline integrator: shallow embedding of `rv9i_implement_a_aut.go`

The Go program holds a `Config` and three client handles and runs four stages in
sequence: `GitClient.Get`, `DockerClient.Build`, `DockerClient.Push`, and one
`KubernetesClient.Deploy` per configured deployment.

The three clients are external collaborators.  They are taken as parameters:
each method is a function of its arguments and of the state `σ` of the outside
world, returning its Go results together with the new outside state.  The types
of the two handles (`Src` for what `Get` returns, `Ctx` for what `Build`
returns) and of Go's `error` values (`Err`) are parameters as well.  A Go result
pair `(v, err)` is a pair `(v, err) : α × Option Err`, with `none` for `nil`.

Every collaborator call is recorded, in order and with its arguments, in a call
log; every `log.Println` line is recorded in a second log.
-/

namespace Pipeline

/-! ## Data model (source lines 11-31) -/

/-- Element of `Config.Kubernetes.Deployments`. -/
structure Deployment where
  Name : String
  Replicas : Int
  ContainerPort : Int
deriving DecidableEq, Repr

/-- The anonymous struct of the field `Config.Kubernetes`. -/
structure KubernetesConfig where
  ClusterURL : String
  Deployments : List Deployment
deriving DecidableEq, Repr

/-- Configuration for the pipeline integrator. -/
structure Config where
  GitRepoURL : String
  GitBranch : String
  DockerImage : String
  Kubernetes : KubernetesConfig
deriving DecidableEq, Repr

/-- One collaborator call with its arguments, in the argument order of the
call site. -/
inductive Call (Src Ctx : Type) where
  | fetch (url branch : String)
  | build (gitDir : Src) (image : String)
  | push (buildContext : Ctx) (image : String)
  | deploy (name image : String) (replicas containerPort : Int)
deriving DecidableEq, Repr

/-- The source-control client: `Get(url, branch)` returns `(gitDir, err)`. -/
structure GitClient (σ Src Err : Type) where
  Get : String → String → σ → (Src × Option Err) × σ

/-- The image client: `Build(gitDir, image)` returns `(buildContext, err)`,
`Push(buildContext, image)` returns `err`. -/
structure DockerClient (σ Src Ctx Err : Type) where
  Build : Src → String → σ → (Ctx × Option Err) × σ
  Push : Ctx → String → σ → Option Err × σ

/-- The cluster client: `Deploy(name, image, replicas, containerPort)` returns
`err`. -/
structure KubernetesClient (σ Err : Type) where
  Deploy : String → String → Int → Int → σ → Option Err × σ

/-- The main struct of the pipeline integrator. -/
structure AutomatedDevOpsPipelineIntegrator (σ Src Ctx Err : Type) where
  Config : Config
  GitClient : GitClient σ Src Err
  DockerClient : DockerClient σ Src Ctx Err
  KubernetesClient : KubernetesClient σ Err

/-- The three external constructors called by
`NewAutomatedDevOpsPipelineIntegrator`; each returns `(client, err)`. -/
structure ClientFactories (σ Src Ctx Err : Type) where
  NewGetter : σ → (GitClient σ Src Err × Option Err) × σ
  NewDockerClient : σ → (DockerClient σ Src Ctx Err × Option Err) × σ
  NewKubernetesClient : σ → (KubernetesClient σ Err × Option Err) × σ

/-- Machine state while `Run` executes: the receiver `a`, the state of the
outside world, the collaborator calls made so far and the lines logged so far. -/
structure Exec (σ Src Ctx Err : Type) where
  self : AutomatedDevOpsPipelineIntegrator σ Src Ctx Err
  ext : σ
  calls : List (Call Src Ctx)
  logs : List String

section Code

variable {σ Src Ctx Err : Type}

/-- A `log.Println` line. -/
def Exec.log (s : Exec σ Src Ctx Err) (line : String) : Exec σ Src Ctx Err :=
  { s with logs := s.logs ++ [line] }

/-- A collaborator call `c` that left the outside world in state `w`. -/
def Exec.called (s : Exec σ Src Ctx Err) (c : Call Src Ctx) (w : σ) : Exec σ Src Ctx Err :=
  { s with ext := w, calls := s.calls ++ [c] }

/-! ## Operations (source lines 34-96) -/

/-- Source lines 34-58: store the config, then create the three clients,
returning `(nil, err)` at the first constructor that fails. -/
def NewAutomatedDevOpsPipelineIntegrator (f : ClientFactories σ Src Ctx Err) (config : Config)
    (w : σ) : Except Err (AutomatedDevOpsPipelineIntegrator σ Src Ctx Err) × σ :=
  let g := f.NewGetter w
  match g.1.2 with
  | some err => (Except.error err, g.2)
  | none =>
    let d := f.NewDockerClient g.2
    match d.1.2 with
    | some err => (Except.error err, d.2)
    | none =>
      let k := f.NewKubernetesClient d.2
      match k.1.2 with
      | some err => (Except.error err, k.2)
      | none =>
        (Except.ok
          { Config := config, GitClient := g.1.1, DockerClient := d.1.1,
            KubernetesClient := k.1.1 }, k.2)

/-- Source lines 87-92: the loop over the deployments, returning at the
first `Deploy` error. -/
def deployLoop : List Deployment → Exec σ Src Ctx Err → Option Err × Exec σ Src Ctx Err
  | [], s => (none, s)
  | deployment :: rest, s =>
    let r := s.self.KubernetesClient.Deploy deployment.Name s.self.Config.DockerImage
      deployment.Replicas deployment.ContainerPort s.ext
    let s1 := s.called (Call.deploy deployment.Name s.self.Config.DockerImage
      deployment.Replicas deployment.ContainerPort) r.2
    match r.1 with
    | some err => (some err, s1)
    | none => deployLoop rest s1

/-- Source lines 61-96: `Run`, started on receiver `a` with the outside
world in state `w`.  The first component is the returned `error`. -/
def Run (a : AutomatedDevOpsPipelineIntegrator σ Src Ctx Err) (w : σ) :
    Option Err × Exec σ Src Ctx Err :=
  let s0 : Exec σ Src Ctx Err := { self := a, ext := w, calls := [], logs := [] }
  let s0 := s0.log "Starting pipeline integrator..."
  let s0 := s0.log "Cloning Git repository..."
  let g := s0.self.GitClient.Get s0.self.Config.GitRepoURL s0.self.Config.GitBranch s0.ext
  let s1 := s0.called (Call.fetch s0.self.Config.GitRepoURL s0.self.Config.GitBranch) g.2
  match g.1.2 with
  | some err => (some err, s1)
  | none =>
    let s1 := s1.log "Building Docker image..."
    let b := s1.self.DockerClient.Build g.1.1 s1.self.Config.DockerImage s1.ext
    let s2 := s1.called (Call.build g.1.1 s1.self.Config.DockerImage) b.2
    match b.1.2 with
    | some err => (some err, s2)
    | none =>
      let s2 := s2.log "Pushing Docker image to registry..."
      let p := s2.self.DockerClient.Push b.1.1 s2.self.Config.DockerImage s2.ext
      let s3 := s2.called (Call.push b.1.1 s2.self.Config.DockerImage) p.2
      match p.1 with
      | some err => (some err, s3)
      | none =>
        let s3 := s3.log "Deploying to Kubernetes..."
        let l := deployLoop s3.self.Config.Kubernetes.Deployments s3
        match l.1 with
        | some err => (some err, l.2)
        | none => (none, l.2.log "Pipeline integrator completed successfully!")

end Code

/-! ## Vocabulary of the specification

The answers the collaborators give to the calls of a run, as functions of the
integrator and of the state of the outside world in which the run starts. -/

section Vocabulary

variable {σ Src Ctx Err : Type}

/-- The stage at which a run fails, with the index of the deployment for the
deploy stage. -/
inductive FailPoint where
  | fetch
  | build
  | push
  | deploy (index : Nat)
deriving DecidableEq, Repr

/-- The deploy call for deployment `d` with image name `image`. -/
def deployCall (image : String) (d : Deployment) : Call Src Ctx :=
  Call.deploy d.Name image d.Replicas d.ContainerPort

/-- Answer of the source-control client to the fetch of the configured
repository and branch, asked in state `w`. -/
def fetchResp (a : AutomatedDevOpsPipelineIntegrator σ Src Ctx Err) (w : σ) :
    (Src × Option Err) × σ :=
  a.GitClient.Get a.Config.GitRepoURL a.Config.GitBranch w

/-- Answer of the image client to the build of the fetched tree, asked in the
state the fetch left. -/
def buildResp (a : AutomatedDevOpsPipelineIntegrator σ Src Ctx Err) (w : σ) :
    (Ctx × Option Err) × σ :=
  a.DockerClient.Build (fetchResp a w).1.1 a.Config.DockerImage (fetchResp a w).2

/-- Answer of the image client to the push of the build context, asked in the
state the build left. -/
def pushResp (a : AutomatedDevOpsPipelineIntegrator σ Src Ctx Err) (w : σ) : Option Err × σ :=
  a.DockerClient.Push (buildResp a w).1.1 a.Config.DockerImage (buildResp a w).2

/-- Answers of the cluster client when the deployments `ds` are deployed one
after the other from state `w`, none being skipped. -/
def deployResponses (k : KubernetesClient σ Err) (image : String) :
    List Deployment → σ → List (Option Err)
  | [], _ => []
  | d :: rest, w =>
    (k.Deploy d.Name image d.Replicas d.ContainerPort w).1 ::
      deployResponses k image rest (k.Deploy d.Name image d.Replicas d.ContainerPort w).2

/-- Answers of the cluster client to the configured deployments, asked from
the state the push left. -/
def deployResps (a : AutomatedDevOpsPipelineIntegrator σ Src Ctx Err) (w : σ) :
    List (Option Err) :=
  deployResponses a.KubernetesClient a.Config.DockerImage a.Config.Kubernetes.Deployments
    (pushResp a w).2

/-- Every collaborator call of the run started in state `w` succeeds. -/
def AllSucceed (a : AutomatedDevOpsPipelineIntegrator σ Src Ctx Err) (w : σ) : Prop :=
  (fetchResp a w).1.2 = none ∧ (buildResp a w).1.2 = none ∧ (pushResp a w).1 = none ∧
    ∀ r ∈ deployResps a w, r = none

/-- The three stages before the deployments succeed. -/
def PreDeployOk (a : AutomatedDevOpsPipelineIntegrator σ Src Ctx Err) (w : σ) : Prop :=
  (fetchResp a w).1.2 = none ∧ (buildResp a w).1.2 = none ∧ (pushResp a w).1 = none

/-- The deploy call for the deployment at index `i` is the first deploy call
that fails, and it fails with `e`. -/
def FirstDeployFailure (a : AutomatedDevOpsPipelineIntegrator σ Src Ctx Err) (w : σ) (i : Nat)
    (e : Err) : Prop :=
  (∀ j, j < i → (deployResps a w)[j]? = some none) ∧ (deployResps a w)[i]? = some (some e)

/-- The first collaborator call that fails in the run started in state `w` is
the one at `p`, and it fails with `e`. -/
def FirstFailure (a : AutomatedDevOpsPipelineIntegrator σ Src Ctx Err) (w : σ) :
    FailPoint → Err → Prop
  | FailPoint.fetch, e => (fetchResp a w).1.2 = some e
  | FailPoint.build, e => (fetchResp a w).1.2 = none ∧ (buildResp a w).1.2 = some e
  | FailPoint.push, e =>
    (fetchResp a w).1.2 = none ∧ (buildResp a w).1.2 = none ∧ (pushResp a w).1 = some e
  | FailPoint.deploy i, e => PreDeployOk a w ∧ FirstDeployFailure a w i e

/-- The four stages of the pipeline. -/
inductive Stage where
  | fetch
  | build
  | push
  | deploy
deriving DecidableEq, Repr

/-- Position of a stage in the fixed order fetch, build, push, deploy. -/
def Stage.index : Stage → Nat
  | Stage.fetch => 0
  | Stage.build => 1
  | Stage.push => 2
  | Stage.deploy => 3

/-- The stage a collaborator call belongs to. -/
def Call.stage : Call Src Ctx → Stage
  | Call.fetch _ _ => Stage.fetch
  | Call.build _ _ => Stage.build
  | Call.push _ _ => Stage.push
  | Call.deploy _ _ _ _ => Stage.deploy

/-- The stage of a failure point. -/
def FailPoint.stage : FailPoint → Stage
  | FailPoint.fetch => Stage.fetch
  | FailPoint.build => Stage.build
  | FailPoint.push => Stage.push
  | FailPoint.deploy _ => Stage.deploy

/-- Number of calls of stage `st` in a call log. -/
def callCount (st : Stage) (cs : List (Call Src Ctx)) : Nat :=
  cs.countP (fun c => decide (c.stage = st))

/-- The calls of stage `st` in a call log, in order. -/
def callsOf (st : Stage) (cs : List (Call Src Ctx)) : List (Call Src Ctx) :=
  cs.filter (fun c => decide (c.stage = st))

/-- The three calls every run makes when none of them fails. -/
def preDeployCalls (a : AutomatedDevOpsPipelineIntegrator σ Src Ctx Err) (w : σ) :
    List (Call Src Ctx) :=
  [Call.fetch a.Config.GitRepoURL a.Config.GitBranch,
   Call.build (fetchResp a w).1.1 a.Config.DockerImage,
   Call.push (buildResp a w).1.1 a.Config.DockerImage]

/-- Machine state when the loop over the deployments starts. -/
def afterPush (a : AutomatedDevOpsPipelineIntegrator σ Src Ctx Err) (w : σ) :
    Exec σ Src Ctx Err :=
  { self := a, ext := (pushResp a w).2, calls := preDeployCalls a w,
    logs := ["Starting pipeline integrator...", "Cloning Git repository...",
      "Building Docker image...", "Pushing Docker image to registry...",
      "Deploying to Kubernetes..."] }

/-- The configuration invariants of the specification (section 8): a config
violates them when the source location is empty, the image name is empty, two
deployments share a name, a replica count is negative, or a container port is
outside 1..65535. -/
def ViolatesConfigInvariant (c : Config) : Prop :=
  c.GitRepoURL = "" ∨ c.DockerImage = "" ∨
    ¬ (c.Kubernetes.Deployments.map (fun d => d.Name)).Nodup ∨
    (∃ d ∈ c.Kubernetes.Deployments, d.Replicas < 0) ∨
    (∃ d ∈ c.Kubernetes.Deployments, d.ContainerPort < 1 ∨ 65535 < d.ContainerPort)

instance (c : Config) : Decidable (ViolatesConfigInvariant c) := by
  unfold ViolatesConfigInvariant; infer_instance

instance [DecidableEq Err] (a : AutomatedDevOpsPipelineIntegrator σ Src Ctx Err) (w : σ) :
    Decidable (AllSucceed a w) := by
  unfold AllSucceed; infer_instance

instance [DecidableEq Err] (a : AutomatedDevOpsPipelineIntegrator σ Src Ctx Err) (w : σ) :
    Decidable (PreDeployOk a w) := by
  unfold PreDeployOk; infer_instance

instance [DecidableEq Err] (a : AutomatedDevOpsPipelineIntegrator σ Src Ctx Err) (w : σ)
    (i : Nat) (e : Err) : Decidable (FirstDeployFailure a w i e) := by
  unfold FirstDeployFailure; infer_instance

instance [DecidableEq Err] (a : AutomatedDevOpsPipelineIntegrator σ Src Ctx Err) (w : σ)
    (p : FailPoint) (e : Err) : Decidable (FirstFailure a w p e) := by
  cases p <;> unfold FirstFailure <;> infer_instance

/-! ### Test doubles

Collaborators over an outside world that counts the calls made to it; handles
and errors are strings. -/

/-- A source-control client answering every fetch with the handle `"tree"` and
the error `err`. -/
def stubGit (err : Option String) : GitClient Nat String String :=
  { Get := fun _ _ n => (("tree", err), n + 1) }

/-- An image client answering every build with the handle `"ctx"` and the error
`berr`, and every push with the error `perr`. -/
def stubDocker (berr perr : Option String) : DockerClient Nat String String String :=
  { Build := fun _ _ n => (("ctx", berr), n + 1)
    Push := fun _ _ n => (perr, n + 1) }

/-- A cluster client whose answer to a deploy is `derr n name`, where `n`
is the number of calls the outside world has seen and `name` the deployment. -/
def stubKube (derr : Nat → String → Option String) : KubernetesClient Nat String :=
  { Deploy := fun name _ _ _ n => (derr n name, n + 1) }

/-- The configuration of the scenario of the specification: deployments `a`
and `b`. -/
def scenarioConfig : Config :=
  { GitRepoURL := "repo", GitBranch := "main", DockerImage := "svc:1"
    Kubernetes :=
      { ClusterURL := "https://cluster"
        Deployments := [
          { Name := "a", Replicas := 3, ContainerPort := 8080 },
          { Name := "b", Replicas := 1, ContainerPort := 9090 }] } }

/-- The scenario integrator with given answers of the collaborators. -/
def scenario (ferr berr perr : Option String) (derr : Nat → String → Option String) :
    AutomatedDevOpsPipelineIntegrator Nat String String String :=
  { Config := scenarioConfig, GitClient := stubGit ferr, DockerClient := stubDocker berr perr,
    KubernetesClient := stubKube derr }

/-- All collaborators succeed. -/
def scenarioOk : AutomatedDevOpsPipelineIntegrator Nat String String String :=
  scenario none none none (fun _ _ => none)

/-- The deploy of `a` fails with `"quota exceeded"`. -/
def scenarioQuota : AutomatedDevOpsPipelineIntegrator Nat String String String :=
  scenario none none none (fun _ name => if name = "a" then some "quota exceeded" else none)

/-- The cluster rejects the call it receives as the fifth call of the outside
world (call number 4) with `"conflict"` and accepts every other call. -/
def scenarioFifthCall : AutomatedDevOpsPipelineIntegrator Nat String String String :=
  scenario none none none (fun n _ => if n = 4 then some "conflict" else none)

/-- The fetch fails with `"timeout"`. -/
def scenarioFetchTimeout : AutomatedDevOpsPipelineIntegrator Nat String String String :=
  scenario (some "timeout") none none (fun _ _ => none)

/-- The push fails with `"timeout"`. -/
def scenarioPushTimeout : AutomatedDevOpsPipelineIntegrator Nat String String String :=
  scenario none none (some "timeout") (fun _ _ => none)

/-- The deploy of `a`, at index 0, fails with `"timeout"`. -/
def scenarioDeployATimeout : AutomatedDevOpsPipelineIntegrator Nat String String String :=
  scenario none none none (fun _ name => if name = "a" then some "timeout" else none)

/-- The deploy of `b`, at index 1, fails with `"timeout"`. -/
def scenarioDeployBTimeout : AutomatedDevOpsPipelineIntegrator Nat String String String :=
  scenario none none none (fun _ name => if name = "b" then some "timeout" else none)

/-- A configuration violating every invariant of the specification: empty
repository URL, empty image name, two deployments named `a`, a negative replica
count, and the ports 0 and 70000. -/
def invalidConfig : Config :=
  { GitRepoURL := "", GitBranch := "main", DockerImage := ""
    Kubernetes :=
      { ClusterURL := ""
        Deployments := [
          { Name := "a", Replicas := -1, ContainerPort := 0 },
          { Name := "a", Replicas := 1, ContainerPort := 70000 }] } }

/-- The invalid configuration with collaborators that all succeed. -/
def invalidIntegrator : AutomatedDevOpsPipelineIntegrator Nat String String String :=
  { Config := invalidConfig, GitClient := stubGit none, DockerClient := stubDocker none none,
    KubernetesClient := stubKube (fun _ _ => none) }

/-- Client constructors that all succeed and return the succeeding test
doubles. -/
def stubFactories : ClientFactories Nat String String String :=
  { NewGetter := fun n => ((stubGit none, none), n + 1)
    NewDockerClient := fun n => ((stubDocker none none, none), n + 1)
    NewKubernetesClient := fun n => ((stubKube (fun _ _ => none), none), n + 1) }

/-- The scenario integrator with another cluster URL. -/
def scenarioOtherCluster : AutomatedDevOpsPipelineIntegrator Nat String String String :=
  { scenarioQuota with
    Config := { scenarioConfig with
      Kubernetes := { scenarioConfig.Kubernetes with ClusterURL := "" } } }

end Vocabulary

/-! ## The loop -/

section Loop

variable {σ Src Ctx Err : Type}

theorem deployLoop_self (ds : List Deployment) (s : Exec σ Src Ctx Err) :
    (deployLoop ds s).2.self = s.self ∧ (deployLoop ds s).2.logs = s.logs := by
  induction ds generalizing s with
  | nil => simp [deployLoop]
  | cons d rest ih =>
    simp only [deployLoop]
    split
    · simp [Exec.called]
    · have := ih (s.called (Call.deploy d.Name s.self.Config.DockerImage d.Replicas
        d.ContainerPort) (s.self.KubernetesClient.Deploy d.Name s.self.Config.DockerImage
        d.Replicas d.ContainerPort s.ext).2)
      simpa [Exec.called] using this

theorem deployLoop_ok (ds : List Deployment) (s : Exec σ Src Ctx Err)
    (h : ∀ r ∈ deployResponses s.self.KubernetesClient s.self.Config.DockerImage ds s.ext,
      r = none) :
    (deployLoop ds s).1 = none ∧
      (deployLoop ds s).2.calls = s.calls ++ ds.map (deployCall s.self.Config.DockerImage) := by
  induction ds generalizing s with
  | nil => simp [deployLoop]
  | cons d rest ih =>
    simp only [deployResponses, List.mem_cons, forall_eq_or_imp] at h
    simp only [deployLoop, h.1]
    have := ih (s.called (Call.deploy d.Name s.self.Config.DockerImage d.Replicas
        d.ContainerPort) (s.self.KubernetesClient.Deploy d.Name s.self.Config.DockerImage
        d.Replicas d.ContainerPort s.ext).2) (by simpa [Exec.called] using h.2)
    simpa [Exec.called, deployCall] using this

theorem deployLoop_fail (ds : List Deployment) (s : Exec σ Src Ctx Err) (i : Nat) (e : Err)
    (hlt : ∀ j, j < i →
      (deployResponses s.self.KubernetesClient s.self.Config.DockerImage ds s.ext)[j]? =
        some none)
    (hi : (deployResponses s.self.KubernetesClient s.self.Config.DockerImage ds s.ext)[i]? =
      some (some e)) :
    (deployLoop ds s).1 = some e ∧
      (deployLoop ds s).2.calls =
        s.calls ++ (ds.take (i + 1)).map (deployCall s.self.Config.DockerImage) := by
  induction ds generalizing s i with
  | nil => simp [deployResponses] at hi
  | cons d rest ih =>
    cases i with
    | zero =>
      simp only [deployResponses, List.getElem?_cons_zero, Option.some.injEq] at hi
      simp [deployLoop, hi, Exec.called, deployCall]
    | succ i =>
      have h0 := hlt 0 (Nat.succ_pos i)
      simp only [deployResponses, List.getElem?_cons_zero, Option.some.injEq] at h0
      simp only [deployResponses, List.getElem?_cons_succ] at hi
      have hlt1 : ∀ j, j < i → (deployResponses s.self.KubernetesClient
          s.self.Config.DockerImage rest (s.self.KubernetesClient.Deploy d.Name
            s.self.Config.DockerImage d.Replicas d.ContainerPort s.ext).2)[j]? = some none := by
        intro j hj
        have := hlt (j + 1) (Nat.succ_lt_succ hj)
        simpa only [deployResponses, List.getElem?_cons_succ] using this
      simp only [deployLoop, h0]
      have := ih (s.called (Call.deploy d.Name s.self.Config.DockerImage d.Replicas
        d.ContainerPort) (s.self.KubernetesClient.Deploy d.Name s.self.Config.DockerImage
        d.Replicas d.ContainerPort s.ext).2) i (by simpa [Exec.called] using hlt1)
        (by simpa [Exec.called] using hi)
      simpa [Exec.called, deployCall] using this

/-- A list of answers is all successes, or has a first failure. -/
theorem responses_dichotomy (rs : List (Option Err)) :
    (∀ r ∈ rs, r = none) ∨
      ∃ (i : Nat) (e : Err), (∀ j, j < i → rs[j]? = some none) ∧ rs[i]? = some (some e) := by
  induction rs with
  | nil => left; simp
  | cons r rest ih =>
    cases r with
    | some e => right; exact ⟨0, e, by simp, by simp⟩
    | none =>
      rcases ih with h | ⟨i, e, hlt, hi⟩
      · left; simpa using h
      · right
        refine ⟨i + 1, e, ?_, by simpa using hi⟩
        intro j hj
        cases j with
        | zero => simp
        | succ j => simpa using hlt j (Nat.lt_of_succ_lt_succ hj)

theorem deployResponses_length (k : KubernetesClient σ Err) (image : String)
    (ds : List Deployment) (w : σ) : (deployResponses k image ds w).length = ds.length := by
  induction ds generalizing w with
  | nil => rfl
  | cons d rest ih => simp [deployResponses, ih]

end Loop

/-! ## The run, stage by stage -/

section Stages

variable {σ Src Ctx Err : Type}

theorem Run_fetch_fail (a : AutomatedDevOpsPipelineIntegrator σ Src Ctx Err) (w : σ) (e : Err)
    (h : (fetchResp a w).1.2 = some e) :
    (Run a w).1 = some e ∧ (Run a w).2.self = a ∧
      (Run a w).2.calls = [Call.fetch a.Config.GitRepoURL a.Config.GitBranch] := by
  unfold fetchResp at h
  simp [Run, Exec.log, Exec.called, h]

theorem Run_build_fail (a : AutomatedDevOpsPipelineIntegrator σ Src Ctx Err) (w : σ) (e : Err)
    (hf : (fetchResp a w).1.2 = none) (h : (buildResp a w).1.2 = some e) :
    (Run a w).1 = some e ∧ (Run a w).2.self = a ∧
      (Run a w).2.calls = [Call.fetch a.Config.GitRepoURL a.Config.GitBranch,
        Call.build (fetchResp a w).1.1 a.Config.DockerImage] := by
  unfold buildResp at h
  unfold fetchResp at hf h
  simp [Run, Exec.log, Exec.called, hf, h, fetchResp]

theorem Run_push_fail (a : AutomatedDevOpsPipelineIntegrator σ Src Ctx Err) (w : σ) (e : Err)
    (hf : (fetchResp a w).1.2 = none) (hb : (buildResp a w).1.2 = none)
    (h : (pushResp a w).1 = some e) :
    (Run a w).1 = some e ∧ (Run a w).2.self = a ∧ (Run a w).2.calls = preDeployCalls a w := by
  unfold pushResp at h
  unfold buildResp at hb h
  unfold fetchResp at hf hb h
  simp [Run, Exec.log, Exec.called, hf, hb, h, fetchResp, buildResp, preDeployCalls]

theorem Run_deploy_stage (a : AutomatedDevOpsPipelineIntegrator σ Src Ctx Err) (w : σ)
    (h : PreDeployOk a w) :
    (Run a w).1 = (deployLoop a.Config.Kubernetes.Deployments (afterPush a w)).1 ∧
      (Run a w).2.self = (deployLoop a.Config.Kubernetes.Deployments (afterPush a w)).2.self ∧
      (Run a w).2.calls =
        (deployLoop a.Config.Kubernetes.Deployments (afterPush a w)).2.calls := by
  obtain ⟨hf, hb, hp⟩ := h
  unfold pushResp at hp
  unfold buildResp at hb hp
  unfold fetchResp at hf hb hp
  simp only [Run, Exec.log, Exec.called, hf, hb, hp, List.nil_append, List.cons_append,
    afterPush, preDeployCalls, pushResp, buildResp, fetchResp]
  split <;> simp_all

theorem Run_all_succeed (a : AutomatedDevOpsPipelineIntegrator σ Src Ctx Err) (w : σ)
    (h : AllSucceed a w) :
    (Run a w).1 = none ∧ (Run a w).2.self = a ∧
      (Run a w).2.calls = preDeployCalls a w ++
        a.Config.Kubernetes.Deployments.map (deployCall a.Config.DockerImage) := by
  obtain ⟨hf, hb, hp, hd⟩ := h
  obtain ⟨h1, h2, h3⟩ := Run_deploy_stage a w ⟨hf, hb, hp⟩
  have hl := deployLoop_ok a.Config.Kubernetes.Deployments (afterPush a w) hd
  have hs := deployLoop_self a.Config.Kubernetes.Deployments (afterPush a w)
  rw [h1, h2, h3]
  exact ⟨hl.1, hs.1, hl.2⟩

theorem Run_deploy_fail (a : AutomatedDevOpsPipelineIntegrator σ Src Ctx Err) (w : σ) (i : Nat)
    (e : Err) (h : PreDeployOk a w) (hd : FirstDeployFailure a w i e) :
    (Run a w).1 = some e ∧ (Run a w).2.self = a ∧
      (Run a w).2.calls = preDeployCalls a w ++
        (a.Config.Kubernetes.Deployments.take (i + 1)).map
          (deployCall a.Config.DockerImage) := by
  obtain ⟨h1, h2, h3⟩ := Run_deploy_stage a w h
  have hl := deployLoop_fail a.Config.Kubernetes.Deployments (afterPush a w) i e hd.1 hd.2
  have hs := deployLoop_self a.Config.Kubernetes.Deployments (afterPush a w)
  rw [h1, h2, h3]
  exact ⟨hl.1, hs.1, hl.2⟩

theorem first_deploy_failure_lt (a : AutomatedDevOpsPipelineIntegrator σ Src Ctx Err) (w : σ)
    (i : Nat) (e : Err) (h : FirstDeployFailure a w i e) :
    i < a.Config.Kubernetes.Deployments.length := by
  have h2 := h.2
  have hlen := deployResponses_length a.KubernetesClient a.Config.DockerImage
    a.Config.Kubernetes.Deployments (pushResp a w).2
  by_contra hge
  have : (deployResps a w)[i]? = none := by
    apply List.getElem?_eq_none
    unfold deployResps
    omega
  rw [this] at h2
  exact Option.noConfusion h2

/-- Every run either has all its calls succeed or has a first failing call. -/
theorem succeed_or_first_failure (a : AutomatedDevOpsPipelineIntegrator σ Src Ctx Err) (w : σ) :
    AllSucceed a w ∨ ∃ (p : FailPoint) (e : Err), FirstFailure a w p e := by
  cases hf : (fetchResp a w).1.2 with
  | some e => exact Or.inr ⟨FailPoint.fetch, e, hf⟩
  | none =>
    cases hb : (buildResp a w).1.2 with
    | some e => exact Or.inr ⟨FailPoint.build, e, hf, hb⟩
    | none =>
      cases hp : (pushResp a w).1 with
      | some e => exact Or.inr ⟨FailPoint.push, e, hf, hb, hp⟩
      | none =>
        rcases responses_dichotomy (deployResps a w) with h | ⟨i, e, h1, h2⟩
        · exact Or.inl ⟨hf, hb, hp, h⟩
        · exact Or.inr ⟨FailPoint.deploy i, e, ⟨hf, hb, hp⟩, h1, h2⟩

/-- The error of a run with a first failing call is the error of that call. -/
theorem Run_first_failure (a : AutomatedDevOpsPipelineIntegrator σ Src Ctx Err) (w : σ)
    (p : FailPoint) (e : Err) (h : FirstFailure a w p e) :
    (Run a w).1 = some e ∧ (Run a w).2.self = a := by
  cases p with
  | fetch => exact ⟨(Run_fetch_fail a w e h).1, (Run_fetch_fail a w e h).2.1⟩
  | build => exact ⟨(Run_build_fail a w e h.1 h.2).1, (Run_build_fail a w e h.1 h.2).2.1⟩
  | push =>
    exact ⟨(Run_push_fail a w e h.1 h.2.1 h.2.2).1, (Run_push_fail a w e h.1 h.2.1 h.2.2).2.1⟩
  | deploy i => exact ⟨(Run_deploy_fail a w i e h.1 h.2).1, (Run_deploy_fail a w i e h.1 h.2).2.1⟩

/-- The receiver is the same after `Run` as before. -/
theorem Run_self (a : AutomatedDevOpsPipelineIntegrator σ Src Ctx Err) (w : σ) :
    (Run a w).2.self = a := by
  rcases succeed_or_first_failure a w with h | ⟨p, e, h⟩
  · exact (Run_all_succeed a w h).2.1
  · exact (Run_first_failure a w p e h).2

theorem callCount_append (st : Stage) (xs ys : List (Call Src Ctx)) :
    callCount st (xs ++ ys) = callCount st xs + callCount st ys := by
  simp [callCount, List.countP_append]

theorem callCount_deployCalls (st : Stage) (image : String) (ds : List Deployment) :
    callCount st (ds.map (deployCall image) : List (Call Src Ctx)) =
      if st = Stage.deploy then ds.length else 0 := by
  induction ds with
  | nil => simp [callCount]
  | cons d rest ih =>
    simp only [callCount, List.map_cons, List.countP_cons] at ih ⊢
    rw [ih]
    cases st <;> simp [deployCall, Call.stage]

theorem callCount_preDeployCalls (st : Stage)
    (a : AutomatedDevOpsPipelineIntegrator σ Src Ctx Err) (w : σ) :
    callCount st (preDeployCalls a w) = if st = Stage.deploy then 0 else 1 := by
  cases st <;> simp [callCount, preDeployCalls, Call.stage, List.countP_cons]

theorem callsOf_deploy_append_deployCalls (a : AutomatedDevOpsPipelineIntegrator σ Src Ctx Err)
    (w : σ) (image : String) (ds : List Deployment) :
    callsOf Stage.deploy (preDeployCalls a w ++ ds.map (deployCall image)) =
      ds.map (deployCall image) := by
  have h : ∀ l : List Deployment,
      (l.map (deployCall image) : List (Call Src Ctx)).filter
        (fun c => decide (c.stage = Stage.deploy)) = l.map (deployCall image) := by
    intro l
    induction l with
    | nil => rfl
    | cons d rest ih => simp [List.filter_cons, deployCall, Call.stage] at ih ⊢
  simp only [callsOf, List.filter_append, h]
  simp [preDeployCalls, List.filter_cons, Call.stage]

/-- The call log of a run is the fetch alone, the fetch and the build, or the
three pre-deploy calls followed by the deploy calls of an initial segment of the
configured deployments. -/
theorem Run_calls_shape (a : AutomatedDevOpsPipelineIntegrator σ Src Ctx Err) (w : σ) :
    (Run a w).2.calls = [Call.fetch a.Config.GitRepoURL a.Config.GitBranch] ∨
    (Run a w).2.calls = [Call.fetch a.Config.GitRepoURL a.Config.GitBranch,
        Call.build (fetchResp a w).1.1 a.Config.DockerImage] ∨
    ∃ m : Nat, m ≤ a.Config.Kubernetes.Deployments.length ∧
      (Run a w).2.calls = preDeployCalls a w ++
        (a.Config.Kubernetes.Deployments.take m).map (deployCall a.Config.DockerImage) := by
  rcases succeed_or_first_failure a w with h | ⟨p, e, h⟩
  · right; right
    exact ⟨a.Config.Kubernetes.Deployments.length, le_refl _, by
      rw [List.take_length]; exact (Run_all_succeed a w h).2.2⟩
  · cases p with
    | fetch => exact Or.inl (Run_fetch_fail a w e h).2.2
    | build => exact Or.inr (Or.inl (Run_build_fail a w e h.1 h.2).2.2)
    | push =>
      right; right
      exact ⟨0, Nat.zero_le _, by simpa using (Run_push_fail a w e h.1 h.2.1 h.2.2).2.2⟩
    | deploy i =>
      exact Or.inr (Or.inr ⟨i + 1, first_deploy_failure_lt a w i e h.2,
        (Run_deploy_fail a w i e h.1 h.2).2.2⟩)

/-- Every call of a run is the configured fetch, the build of the fetched tree,
the push of the build context, or the deploy call of a configured deployment. -/
theorem mem_Run_calls (a : AutomatedDevOpsPipelineIntegrator σ Src Ctx Err) (w : σ)
    (c : Call Src Ctx) (hc : c ∈ (Run a w).2.calls) :
    c = Call.fetch a.Config.GitRepoURL a.Config.GitBranch ∨
    c = Call.build (fetchResp a w).1.1 a.Config.DockerImage ∨
    c = Call.push (buildResp a w).1.1 a.Config.DockerImage ∨
    ∃ d ∈ a.Config.Kubernetes.Deployments, c = deployCall a.Config.DockerImage d := by
  rcases Run_calls_shape a w with h | h | ⟨m, _, h⟩
  · rw [h] at hc; simp at hc; exact Or.inl hc
  · rw [h] at hc; simp at hc
    rcases hc with hc | hc
    · exact Or.inl hc
    · exact Or.inr (Or.inl hc)
  · rw [h, List.mem_append] at hc
    rcases hc with hc | hc
    · simp [preDeployCalls] at hc
      rcases hc with hc | hc | hc
      · exact Or.inl hc
      · exact Or.inr (Or.inl hc)
      · exact Or.inr (Or.inr (Or.inl hc))
    · obtain ⟨d, hd, rfl⟩ := List.mem_map.mp hc
      exact Or.inr (Or.inr (Or.inr ⟨d, List.mem_of_mem_take hd, rfl⟩))

/-- The first call of every run is the fetch of the configured repository and
branch. -/
theorem Run_calls_head (a : AutomatedDevOpsPipelineIntegrator σ Src Ctx Err) (w : σ) :
    (Run a w).2.calls.head? = some (Call.fetch a.Config.GitRepoURL a.Config.GitBranch) := by
  rcases Run_calls_shape a w with h | h | ⟨m, _, h⟩ <;> rw [h] <;> simp [preDeployCalls]

/-- The deploy calls of a run are those of an initial segment of the configured
deployments. -/
theorem Run_deploy_calls (a : AutomatedDevOpsPipelineIntegrator σ Src Ctx Err) (w : σ) :
    ∃ m : Nat, m ≤ a.Config.Kubernetes.Deployments.length ∧
      callsOf Stage.deploy (Run a w).2.calls =
        (a.Config.Kubernetes.Deployments.take m).map (deployCall a.Config.DockerImage) := by
  rcases Run_calls_shape a w with h | h | ⟨m, hm, h⟩
  · exact ⟨0, Nat.zero_le _, by rw [h]; simp [callsOf, Call.stage]⟩
  · exact ⟨0, Nat.zero_le _, by rw [h]; simp [callsOf, Call.stage]⟩
  · exact ⟨m, hm, by rw [h]; exact callsOf_deploy_append_deployCalls a w _ _⟩

/-- When the three pre-deploy stages succeed and every deploy before index `k`
succeeds, the deploy call at position `k` is made, for the deployment at index
`k`. -/
theorem Run_deploy_call_made (a : AutomatedDevOpsPipelineIntegrator σ Src Ctx Err) (w : σ)
    (k : Nat) (d : Deployment) (hpre : PreDeployOk a w)
    (hearlier : ∀ j, j < k → (deployResps a w)[j]? = some none)
    (hd : a.Config.Kubernetes.Deployments[k]? = some d) :
    (callsOf Stage.deploy (Run a w).2.calls)[k]? = some (deployCall a.Config.DockerImage d) := by
  rcases succeed_or_first_failure a w with h | ⟨p, e, h⟩
  · rw [(Run_all_succeed a w h).2.2, callsOf_deploy_append_deployCalls, List.getElem?_map, hd]
    rfl
  · cases p with
    | fetch => exact Option.noConfusion (hpre.1.symm.trans h)
    | build => exact Option.noConfusion (hpre.2.1.symm.trans h.2)
    | push => exact Option.noConfusion (hpre.2.2.symm.trans h.2.2)
    | deploy i =>
      have hki : k < i + 1 := by
        by_contra hge
        have hlt : i < k := by omega
        have h1 := hearlier i hlt
        rw [h.2.2] at h1
        cases h1
      rw [(Run_deploy_fail a w i e h.1 h.2).2.2, callsOf_deploy_append_deployCalls,
        List.getElem?_map, List.getElem?_take, if_pos hki, hd]
      rfl

/-- A run that returns an error has a first failing call with that error. -/
theorem Run_error_first_failure (a : AutomatedDevOpsPipelineIntegrator σ Src Ctx Err) (w : σ)
    (e : Err) (h : (Run a w).1 = some e) : ∃ p : FailPoint, FirstFailure a w p e := by
  rcases succeed_or_first_failure a w with hs | ⟨p, e1, hp⟩
  · rw [(Run_all_succeed a w hs).1] at h
    exact Option.noConfusion h
  · rw [(Run_first_failure a w p e1 hp).1] at h
    cases h
    exact ⟨p, hp⟩

end Stages

/-! ## The claims -/

section Claims

variable {σ Src Ctx Err : Type}

/-- C1: when every collaborator call of a run succeeds, `Run` returns no error
and its call log is exactly one fetch, one build, one push, then one deploy per
configured deployment in configured order, the deploy at position `k` being the
one for the deployment at index `k`; the number of deploy calls is the number
`N` of configured deployments (zero for the empty list). -/
theorem Run_success_call_sequence (a : AutomatedDevOpsPipelineIntegrator σ Src Ctx Err) (w : σ)
    (h : AllSucceed a w) :
    (Run a w).1 = none ∧
    (Run a w).2.calls =
      [Call.fetch a.Config.GitRepoURL a.Config.GitBranch,
       Call.build (fetchResp a w).1.1 a.Config.DockerImage,
       Call.push (buildResp a w).1.1 a.Config.DockerImage] ++
      a.Config.Kubernetes.Deployments.map
        (fun d => Call.deploy d.Name a.Config.DockerImage d.Replicas d.ContainerPort) ∧
    callCount Stage.fetch (Run a w).2.calls = 1 ∧
    callCount Stage.build (Run a w).2.calls = 1 ∧
    callCount Stage.push (Run a w).2.calls = 1 ∧
    callCount Stage.deploy (Run a w).2.calls = a.Config.Kubernetes.Deployments.length ∧
    ∀ k : Nat, (Run a w).2.calls[3 + k]? =
      (a.Config.Kubernetes.Deployments[k]?).map
        (fun d => Call.deploy d.Name a.Config.DockerImage d.Replicas d.ContainerPort) := by
  obtain ⟨h1, _, h3⟩ := Run_all_succeed a w h
  refine ⟨h1, h3, ?_, ?_, ?_, ?_, ?_⟩
  · rw [h3, callCount_append, callCount_preDeployCalls, callCount_deployCalls]; simp
  · rw [h3, callCount_append, callCount_preDeployCalls, callCount_deployCalls]; simp
  · rw [h3, callCount_append, callCount_preDeployCalls, callCount_deployCalls]; simp
  · rw [h3, callCount_append, callCount_preDeployCalls, callCount_deployCalls]; simp
  · intro k
    rw [h3]
    have hlen : (preDeployCalls a w).length = 3 := rfl
    rw [List.getElem?_append_right (by omega), hlen]
    simp only [Nat.add_sub_cancel_left, List.getElem?_map]
    rfl

/-- Witness of C1: the scenario of the specification with succeeding
collaborators. -/
theorem Run_success_call_sequence_witness :
    AllSucceed scenarioOk 0 ∧ (Run scenarioOk 0).1 = none ∧
      (Run scenarioOk 0).2.calls =
        [Call.fetch "repo" "main", Call.build "tree" "svc:1", Call.push "ctx" "svc:1",
         Call.deploy "a" "svc:1" 3 8080, Call.deploy "b" "svc:1" 1 9090] :=
  have h : AllSucceed scenarioOk 0 := by decide
  ⟨h, (Run_success_call_sequence scenarioOk 0 h).1, (Run_success_call_sequence scenarioOk 0 h).2.1⟩

/-- C2: when the first failing collaborator call of a run is at one of the
stages fetch, build, push and fails with `e`, `Run` returns `e`, its call log is
the fetch, build and push calls up to and including the failing one, so that
every stage up to the failing one is called exactly once and no later stage is
called at all. -/
theorem Run_predeploy_failure (a : AutomatedDevOpsPipelineIntegrator σ Src Ctx Err) (w : σ)
    (p : FailPoint) (e : Err) (hp : p.stage ≠ Stage.deploy) (h : FirstFailure a w p e) :
    (Run a w).1 = some e ∧
    (Run a w).2.calls =
      ([Call.fetch a.Config.GitRepoURL a.Config.GitBranch,
        Call.build (fetchResp a w).1.1 a.Config.DockerImage,
        Call.push (buildResp a w).1.1 a.Config.DockerImage]).take (p.stage.index + 1) ∧
    ∀ st : Stage, callCount st (Run a w).2.calls = if st.index ≤ p.stage.index then 1 else 0 := by
  cases p with
  | fetch =>
    obtain ⟨h1, _, h3⟩ := Run_fetch_fail a w e h
    refine ⟨h1, by simpa [FailPoint.stage, Stage.index] using h3, ?_⟩
    intro st
    rw [h3]
    cases st <;> simp [callCount, Call.stage, FailPoint.stage, Stage.index]
  | build =>
    obtain ⟨h1, _, h3⟩ := Run_build_fail a w e h.1 h.2
    refine ⟨h1, by simpa [FailPoint.stage, Stage.index] using h3, ?_⟩
    intro st
    rw [h3]
    cases st <;> simp [callCount, Call.stage, FailPoint.stage, Stage.index, List.countP_cons]
  | push =>
    obtain ⟨h1, _, h3⟩ := Run_push_fail a w e h.1 h.2.1 h.2.2
    refine ⟨h1, by simpa [FailPoint.stage, Stage.index, preDeployCalls] using h3, ?_⟩
    intro st
    rw [h3]
    cases st <;>
      simp [callCount, Call.stage, FailPoint.stage, Stage.index, List.countP_cons,
        preDeployCalls]
  | deploy i => exact absurd rfl hp

/-- Witness of C2: in the scenario of the specification the build fails with
`"no Dockerfile"`. -/
theorem Run_predeploy_failure_witness :
    FirstFailure (scenario none (some "no Dockerfile") none (fun _ _ => none)) 0
        FailPoint.build "no Dockerfile" ∧
      (Run (scenario none (some "no Dockerfile") none (fun _ _ => none)) 0).1 =
        some "no Dockerfile" ∧
      (Run (scenario none (some "no Dockerfile") none (fun _ _ => none)) 0).2.calls =
        [Call.fetch "repo" "main", Call.build "tree" "svc:1"] :=
  have h : FirstFailure (scenario none (some "no Dockerfile") none (fun _ _ => none)) 0
      FailPoint.build "no Dockerfile" := by decide
  ⟨h, (Run_predeploy_failure _ 0 FailPoint.build "no Dockerfile" (by decide) h).1,
    (Run_predeploy_failure _ 0 FailPoint.build "no Dockerfile" (by decide) h).2.1⟩

/-- C3: when fetch, build and push succeed and the deploy call for the
deployment at index `i` is the first deploy call to fail, with `e`, then `Run`
returns the failure `e` and its call log is the fetch, the build, the push and
then exactly the deploy calls for the deployments at indices `0..i`, in
configured order, one call each; nothing is called after the failing deploy (no
deploy for an index above `i`, no rollback of any kind). -/
theorem Run_deploy_failure (a : AutomatedDevOpsPipelineIntegrator σ Src Ctx Err) (w : σ)
    (i : Nat) (e : Err) (hpre : PreDeployOk a w) (h : FirstDeployFailure a w i e) :
    (Run a w).1 = some e ∧
    i < a.Config.Kubernetes.Deployments.length ∧
    (Run a w).2.calls =
      [Call.fetch a.Config.GitRepoURL a.Config.GitBranch,
       Call.build (fetchResp a w).1.1 a.Config.DockerImage,
       Call.push (buildResp a w).1.1 a.Config.DockerImage] ++
      (a.Config.Kubernetes.Deployments.take (i + 1)).map
        (fun d => Call.deploy d.Name a.Config.DockerImage d.Replicas d.ContainerPort) ∧
    callsOf Stage.deploy (Run a w).2.calls =
      (a.Config.Kubernetes.Deployments.take (i + 1)).map
        (fun d => Call.deploy d.Name a.Config.DockerImage d.Replicas d.ContainerPort) ∧
    callCount Stage.deploy (Run a w).2.calls = i + 1 := by
  obtain ⟨h1, _, h3⟩ := Run_deploy_fail a w i e hpre h
  have hlt := first_deploy_failure_lt a w i e h
  refine ⟨h1, hlt, h3, ?_, ?_⟩
  · rw [h3]; exact callsOf_deploy_append_deployCalls a w _ _
  · rw [h3, callCount_append, callCount_preDeployCalls, callCount_deployCalls]
    simp only [if_true, List.length_take]
    omega

/-- Witness of C3: the second scenario of the specification, where the deploy
of `a` fails with `"quota exceeded"` and `b` is never deployed. -/
theorem Run_deploy_failure_witness :
    PreDeployOk scenarioQuota 0 ∧ FirstDeployFailure scenarioQuota 0 0 "quota exceeded" ∧
      (Run scenarioQuota 0).1 = some "quota exceeded" ∧
      (Run scenarioQuota 0).2.calls =
        [Call.fetch "repo" "main", Call.build "tree" "svc:1", Call.push "ctx" "svc:1",
         Call.deploy "a" "svc:1" 3 8080] :=
  have hpre : PreDeployOk scenarioQuota 0 := by decide
  have h : FirstDeployFailure scenarioQuota 0 0 "quota exceeded" := by decide
  ⟨hpre, h, (Run_deploy_failure scenarioQuota 0 0 "quota exceeded" hpre h).1,
    (Run_deploy_failure scenarioQuota 0 0 "quota exceeded" hpre h).2.2.1⟩

/-- C4, counterexample: four runs of the scenario fail with the same
underlying error `"timeout"`, at the fetch, at the push, at the deployment of
index 0 and at the deployment of index 1, and `Run` returns the same result in
all four: the result carries neither the stage nor the deployment index. -/
theorem Run_result_not_tagged :
    FirstFailure scenarioFetchTimeout 0 FailPoint.fetch "timeout" ∧
    FirstFailure scenarioPushTimeout 0 FailPoint.push "timeout" ∧
    FirstFailure scenarioDeployATimeout 0 (FailPoint.deploy 0) "timeout" ∧
    FirstFailure scenarioDeployBTimeout 0 (FailPoint.deploy 1) "timeout" ∧
    (Run scenarioFetchTimeout 0).1 = some "timeout" ∧
    (Run scenarioPushTimeout 0).1 = (Run scenarioFetchTimeout 0).1 ∧
    (Run scenarioDeployATimeout 0).1 = (Run scenarioFetchTimeout 0).1 ∧
    (Run scenarioDeployBTimeout 0).1 = (Run scenarioDeployATimeout 0).1 := by
  decide

/-- C4, amended: the result of a failing run is exactly the error of the first
failing collaborator call, returned unchanged; two runs whose first failing
calls fail with the same error return the same result, whatever the stages or
deployment indices at which they fail. -/
theorem Run_returns_underlying_error (a₁ a₂ : AutomatedDevOpsPipelineIntegrator σ Src Ctx Err)
    (w₁ w₂ : σ) (p₁ p₂ : FailPoint) (e : Err)
    (h₁ : FirstFailure a₁ w₁ p₁ e) (h₂ : FirstFailure a₂ w₂ p₂ e) :
    (Run a₁ w₁).1 = some e ∧ (Run a₂ w₂).1 = some e ∧ (Run a₁ w₁).1 = (Run a₂ w₂).1 := by
  have r₁ := (Run_first_failure a₁ w₁ p₁ e h₁).1
  have r₂ := (Run_first_failure a₂ w₂ p₂ e h₂).1
  exact ⟨r₁, r₂, r₁.trans r₂.symm⟩

/-- Witness of amended C4: a failure at the fetch and a failure at the
deployment of index 1, both with `"timeout"`. -/
theorem Run_returns_underlying_error_witness :
    FirstFailure scenarioFetchTimeout 0 FailPoint.fetch "timeout" ∧
    FirstFailure scenarioDeployBTimeout 0 (FailPoint.deploy 1) "timeout" ∧
    (Run scenarioFetchTimeout 0).1 = (Run scenarioDeployBTimeout 0).1 :=
  have h₁ : FirstFailure scenarioFetchTimeout 0 FailPoint.fetch "timeout" := by decide
  have h₂ : FirstFailure scenarioDeployBTimeout 0 (FailPoint.deploy 1) "timeout" := by decide
  ⟨h₁, h₂, (Run_returns_underlying_error scenarioFetchTimeout scenarioDeployBTimeout 0 0
    FailPoint.fetch (FailPoint.deploy 1) "timeout" h₁ h₂).2.2⟩

/-- C5, counterexample: a configuration that violates each of the five
invariants is not rejected: with succeeding collaborators `Run` returns no
error and makes the fetch, build, push and both deploy calls. -/
theorem Run_accepts_invalid_config :
    invalidConfig.GitRepoURL = "" ∧ invalidConfig.DockerImage = "" ∧
    ¬ (invalidConfig.Kubernetes.Deployments.map (fun d => d.Name)).Nodup ∧
    (∃ d ∈ invalidConfig.Kubernetes.Deployments, d.Replicas < 0) ∧
    (∃ d ∈ invalidConfig.Kubernetes.Deployments, d.ContainerPort < 1 ∨ 65535 < d.ContainerPort) ∧
    ViolatesConfigInvariant invalidIntegrator.Config ∧
    (Run invalidIntegrator 0).1 = none ∧
    (Run invalidIntegrator 0).2.calls =
      [Call.fetch "" "main", Call.build "tree" "", Call.push "ctx" "",
       Call.deploy "a" "" (-1) 0, Call.deploy "a" "" 1 70000] := by
  decide

/-- C5, amended: `Run` does not validate its configuration.  For every
configuration, violating an invariant or not, the first action of `Run` is the
fetch call with the configured repository URL and branch; an error returned by
`Run` is always the error of a failing collaborator call, never a configuration
error; and when all collaborator calls succeed `Run` succeeds.  So no
configuration, valid or invalid, is rejected. -/
theorem Run_no_validation (a : AutomatedDevOpsPipelineIntegrator σ Src Ctx Err) (w : σ) :
    (Run a w).2.calls.head? = some (Call.fetch a.Config.GitRepoURL a.Config.GitBranch) ∧
    (∀ e : Err, (Run a w).1 = some e → ∃ p : FailPoint, FirstFailure a w p e) ∧
    (AllSucceed a w → (Run a w).1 = none) :=
  ⟨Run_calls_head a w, fun e h => Run_error_first_failure a w e h,
    fun h => (Run_all_succeed a w h).1⟩

/-- Witness of amended C5: the invalid configuration run with succeeding
collaborators. -/
theorem Run_no_validation_witness :
    ViolatesConfigInvariant invalidIntegrator.Config ∧ AllSucceed invalidIntegrator 0 ∧
    (Run invalidIntegrator 0).2.calls.head? = some (Call.fetch "" "main") ∧
    (Run invalidIntegrator 0).1 = none :=
  have h : AllSucceed invalidIntegrator 0 := by decide
  ⟨by decide, h, (Run_no_validation invalidIntegrator 0).1,
    (Run_no_validation invalidIntegrator 0).2.2 h⟩

/-- C6: in every run, the image name passed to every build, push and deploy
call is `Config.DockerImage`, and the deploy calls made are, in order, the calls
`Deploy(Name, DockerImage, Replicas, ContainerPort)` of the first `m` configured
deployments for some `m`: the deploy call at position `k` carries exactly the
name, replica count and container port of the deployment at index `k`.  These
calls are really made: when the fetch succeeds the build is called with
`Config.DockerImage`; when the build succeeds too the push is called with
`Config.DockerImage`; and when the push succeeds too and every deploy before
index `k` succeeds, the deploy call at position `k` is made, with the name, the
image name `Config.DockerImage`, the replica count and the container port of the
deployment at index `k`, in that argument order. -/
theorem Run_image_name_and_deploy_arguments (a : AutomatedDevOpsPipelineIntegrator σ Src Ctx Err)
    (w : σ) :
    (∀ (gitDir : Src) (image : String),
      Call.build gitDir image ∈ (Run a w).2.calls → image = a.Config.DockerImage) ∧
    (∀ (buildContext : Ctx) (image : String),
      Call.push buildContext image ∈ (Run a w).2.calls → image = a.Config.DockerImage) ∧
    (∀ (name image : String) (replicas containerPort : Int),
      Call.deploy name image replicas containerPort ∈ (Run a w).2.calls →
        image = a.Config.DockerImage) ∧
    (∃ m : Nat, m ≤ a.Config.Kubernetes.Deployments.length ∧
      callsOf Stage.deploy (Run a w).2.calls =
        (a.Config.Kubernetes.Deployments.take m).map
          (fun d => Call.deploy d.Name a.Config.DockerImage d.Replicas d.ContainerPort)) ∧
    (∀ (k : Nat) (c : Call Src Ctx), (callsOf Stage.deploy (Run a w).2.calls)[k]? = some c →
      ∃ d : Deployment, a.Config.Kubernetes.Deployments[k]? = some d ∧
        c = Call.deploy d.Name a.Config.DockerImage d.Replicas d.ContainerPort) ∧
    ((fetchResp a w).1.2 = none →
      callsOf Stage.build (Run a w).2.calls =
        [Call.build (fetchResp a w).1.1 a.Config.DockerImage]) ∧
    ((fetchResp a w).1.2 = none → (buildResp a w).1.2 = none →
      callsOf Stage.push (Run a w).2.calls =
        [Call.push (buildResp a w).1.1 a.Config.DockerImage]) ∧
    (∀ (k : Nat) (d : Deployment), PreDeployOk a w →
      (∀ j, j < k → (deployResps a w)[j]? = some none) →
      a.Config.Kubernetes.Deployments[k]? = some d →
      (callsOf Stage.deploy (Run a w).2.calls)[k]? =
        some (Call.deploy d.Name a.Config.DockerImage d.Replicas d.ContainerPort)) := by
  refine ⟨?_, ?_, ?_, Run_deploy_calls a w, ?_, ?_, ?_, ?_⟩
  · intro gitDir image h
    rcases mem_Run_calls a w _ h with h | h | h | ⟨d, _, h⟩
    · cases h
    · cases h; rfl
    · cases h
    · cases h
  · intro buildContext image h
    rcases mem_Run_calls a w _ h with h | h | h | ⟨d, _, h⟩
    · cases h
    · cases h
    · cases h; rfl
    · cases h
  · intro name image replicas containerPort h
    rcases mem_Run_calls a w _ h with h | h | h | ⟨d, _, h⟩
    · cases h
    · cases h
    · cases h
    · cases h; rfl
  · intro k c hk
    obtain ⟨m, _, hm⟩ := Run_deploy_calls a w
    rw [hm, List.getElem?_map] at hk
    obtain ⟨d, hd, hc⟩ := Option.map_eq_some'.mp hk
    rw [List.getElem?_take] at hd
    split at hd
    · exact ⟨d, hd, hc.symm⟩
    · exact Option.noConfusion hd
  · intro hf
    rcases Run_calls_shape a w with h | h | ⟨m, _, h⟩
    · exfalso
      rcases succeed_or_first_failure a w with hs | ⟨p, e, hp⟩
      · rw [(Run_all_succeed a w hs).2.2] at h
        simp [preDeployCalls] at h
      · cases p with
        | fetch => exact Option.noConfusion (hf.symm.trans hp)
        | build => rw [(Run_build_fail a w e hp.1 hp.2).2.2] at h; simp at h
        | push =>
          rw [(Run_push_fail a w e hp.1 hp.2.1 hp.2.2).2.2] at h
          simp [preDeployCalls] at h
        | deploy i =>
          rw [(Run_deploy_fail a w i e hp.1 hp.2).2.2] at h
          simp [preDeployCalls] at h
    · rw [h]; simp [callsOf, Call.stage, List.filter_cons]
    · rw [h]
      simp only [callsOf, List.filter_append]
      have hz : ∀ l : List Deployment,
          (l.map (deployCall a.Config.DockerImage) : List (Call Src Ctx)).filter
            (fun c => decide (c.stage = Stage.build)) = [] := by
        intro l
        induction l with
        | nil => rfl
        | cons d rest ih => simp [List.filter_cons, deployCall, Call.stage] at ih ⊢
      rw [hz]
      simp [preDeployCalls, Call.stage, List.filter_cons]
  · intro hf hb
    have hz : ∀ l : List Deployment,
        (l.map (deployCall a.Config.DockerImage) : List (Call Src Ctx)).filter
          (fun c => decide (c.stage = Stage.push)) = [] := by
      intro l
      induction l with
      | nil => rfl
      | cons d rest ih => simp [List.filter_cons, deployCall, Call.stage] at ih ⊢
    have hpre : callsOf Stage.push (preDeployCalls a w) =
        [Call.push (buildResp a w).1.1 a.Config.DockerImage] := by
      simp [callsOf, preDeployCalls, Call.stage, List.filter_cons]
    rcases succeed_or_first_failure a w with hs | ⟨p, e, hp⟩
    · rw [(Run_all_succeed a w hs).2.2]
      simp only [callsOf, List.filter_append, hz, List.append_nil]
      exact hpre
    · cases p with
      | fetch => exact Option.noConfusion (hf.symm.trans hp)
      | build => exact Option.noConfusion (hb.symm.trans hp.2)
      | push => rw [(Run_push_fail a w e hp.1 hp.2.1 hp.2.2).2.2]; exact hpre
      | deploy i =>
        rw [(Run_deploy_fail a w i e hp.1 hp.2).2.2]
        simp only [callsOf, List.filter_append, hz, List.append_nil]
        exact hpre
  · intro k d hpre hearlier hd
    exact Run_deploy_call_made a w k d hpre hearlier hd

/-- Witness of C6: in the scenario whose cluster rejects the deploy of `b`, the
build and the push are called with the image name `"svc:1"`, and the deploy
calls at positions 0 and 1 carry the fields of `a` and of `b`. -/
theorem Run_image_name_and_deploy_arguments_witness :
    PreDeployOk scenarioFifthCall 0 ∧
    callsOf Stage.build (Run scenarioFifthCall 0).2.calls = [Call.build "tree" "svc:1"] ∧
    callsOf Stage.push (Run scenarioFifthCall 0).2.calls = [Call.push "ctx" "svc:1"] ∧
    (callsOf Stage.deploy (Run scenarioFifthCall 0).2.calls)[0]? =
      some (Call.deploy "a" "svc:1" 3 8080) ∧
    (callsOf Stage.deploy (Run scenarioFifthCall 0).2.calls)[1]? =
      some (Call.deploy "b" "svc:1" 1 9090) :=
  have hpre : PreDeployOk scenarioFifthCall 0 := by decide
  ⟨hpre,
    (Run_image_name_and_deploy_arguments scenarioFifthCall 0).2.2.2.2.2.1 hpre.1,
    (Run_image_name_and_deploy_arguments scenarioFifthCall 0).2.2.2.2.2.2.1 hpre.1 hpre.2.1,
    (Run_image_name_and_deploy_arguments scenarioFifthCall 0).2.2.2.2.2.2.2 0
      { Name := "a", Replicas := 3, ContainerPort := 8080 } hpre (by decide) rfl,
    (Run_image_name_and_deploy_arguments scenarioFifthCall 0).2.2.2.2.2.2.2 1
      { Name := "b", Replicas := 1, ContainerPort := 9090 } hpre (by decide) rfl⟩

/-- C7: in every run, the first call is the fetch, made with
`(Config.GitRepoURL, Config.GitBranch)`, and no other fetch is made; the handle
passed to a build call is the value returned by that fetch; the handle passed to
a push call is the value returned by the build of that handle; and the arguments
of every deploy call are the fields of a configured deployment and the
configured image name, so no deploy call receives a handle. -/
theorem Run_data_flow (a : AutomatedDevOpsPipelineIntegrator σ Src Ctx Err) (w : σ) :
    (Run a w).2.calls.head? = some (Call.fetch a.Config.GitRepoURL a.Config.GitBranch) ∧
    (∀ url branch : String, Call.fetch url branch ∈ (Run a w).2.calls →
      url = a.Config.GitRepoURL ∧ branch = a.Config.GitBranch) ∧
    (∀ (gitDir : Src) (image : String), Call.build gitDir image ∈ (Run a w).2.calls →
      gitDir = (a.GitClient.Get a.Config.GitRepoURL a.Config.GitBranch w).1.1) ∧
    (∀ (buildContext : Ctx) (image : String),
      Call.push buildContext image ∈ (Run a w).2.calls →
      buildContext =
        (a.DockerClient.Build (a.GitClient.Get a.Config.GitRepoURL a.Config.GitBranch w).1.1
          a.Config.DockerImage
          (a.GitClient.Get a.Config.GitRepoURL a.Config.GitBranch w).2).1.1) ∧
    (∀ c ∈ (Run a w).2.calls, c.stage = Stage.deploy →
      ∃ d ∈ a.Config.Kubernetes.Deployments,
        c = Call.deploy d.Name a.Config.DockerImage d.Replicas d.ContainerPort) := by
  refine ⟨Run_calls_head a w, ?_, ?_, ?_, ?_⟩
  · intro url branch h
    rcases mem_Run_calls a w _ h with h | h | h | ⟨d, _, h⟩
    · cases h; exact ⟨rfl, rfl⟩
    · cases h
    · cases h
    · cases h
  · intro gitDir image h
    rcases mem_Run_calls a w _ h with h | h | h | ⟨d, _, h⟩
    · cases h
    · cases h; rfl
    · cases h
    · cases h
  · intro buildContext image h
    rcases mem_Run_calls a w _ h with h | h | h | ⟨d, _, h⟩
    · cases h
    · cases h
    · cases h; rfl
    · cases h
  · intro c h hst
    rcases mem_Run_calls a w _ h with h | h | h | ⟨d, hd, h⟩
    · subst h; cases hst
    · subst h; cases hst
    · subst h; cases hst
    · exact ⟨d, hd, h⟩

/-- C8: a run keeps no memory of an earlier run.  If a first run, started in
state `w`, fails at the deployment of index `i` (having made the deploy calls
for the indices `0..i`), and `Run` is invoked again on the same integrator in a
state `w1` of the outside world (the state the first run left, or any later one)
in which all collaborator calls succeed, then the second run is the run a fresh
integrator would make in `w1`: it succeeds and its call log is again the full
sequence fetch, build, push and one deploy for every configured deployment,
those of the indices up to `i` included. -/
theorem rerun_repeats_every_call (a : AutomatedDevOpsPipelineIntegrator σ Src Ctx Err) (w w1 : σ)
    (i : Nat) (e : Err) (hfail : FirstFailure a w (FailPoint.deploy i) e)
    (hok : AllSucceed (Run a w).2.self w1) :
    (Run a w).1 = some e ∧
    callsOf Stage.deploy (Run a w).2.calls =
      (a.Config.Kubernetes.Deployments.take (i + 1)).map
        (fun d => Call.deploy d.Name a.Config.DockerImage d.Replicas d.ContainerPort) ∧
    Run (Run a w).2.self w1 = Run a w1 ∧
    (Run (Run a w).2.self w1).1 = none ∧
    (Run (Run a w).2.self w1).2.calls =
      [Call.fetch a.Config.GitRepoURL a.Config.GitBranch,
       Call.build (fetchResp a w1).1.1 a.Config.DockerImage,
       Call.push (buildResp a w1).1.1 a.Config.DockerImage] ++
      a.Config.Kubernetes.Deployments.map
        (fun d => Call.deploy d.Name a.Config.DockerImage d.Replicas d.ContainerPort) := by
  have hself := Run_self a w
  rw [hself] at hok ⊢
  obtain ⟨h1, _, h3⟩ := Run_deploy_fail a w i e hfail.1 hfail.2
  obtain ⟨k1, _, k3⟩ := Run_all_succeed a w1 hok
  refine ⟨h1, ?_, rfl, k1, k3⟩
  rw [h3]
  exact callsOf_deploy_append_deployCalls a w _ _

/-- Witness of C8: the cluster rejects the fifth call it ever receives; the
first run fails at the deployment of index 1, and the run started again in the
state the first run left makes all five calls. -/
theorem rerun_repeats_every_call_witness :
    FirstFailure scenarioFifthCall 0 (FailPoint.deploy 1) "conflict" ∧
    (Run scenarioFifthCall 0).2.ext = 5 ∧
    AllSucceed (Run scenarioFifthCall 0).2.self (Run scenarioFifthCall 0).2.ext ∧
    (Run (Run scenarioFifthCall 0).2.self (Run scenarioFifthCall 0).2.ext).2.calls =
      [Call.fetch "repo" "main", Call.build "tree" "svc:1", Call.push "ctx" "svc:1",
       Call.deploy "a" "svc:1" 3 8080, Call.deploy "b" "svc:1" 1 9090] :=
  have hfail : FirstFailure scenarioFifthCall 0 (FailPoint.deploy 1) "conflict" := by decide
  have hok : AllSucceed (Run scenarioFifthCall 0).2.self (Run scenarioFifthCall 0).2.ext := by
    decide
  ⟨hfail, by decide, hok,
    (rerun_repeats_every_call scenarioFifthCall 0 (Run scenarioFifthCall 0).2.ext 1 "conflict"
      hfail hok).2.2.2.2⟩

/-- C9: `Run` never changes its receiver: after `Run`, whatever its outcome,
the integrator and in particular its `Config` (deployment list, order and every
field) are what they were before; and when
`NewAutomatedDevOpsPipelineIntegrator` succeeds, the integrator it returns holds
the given `Config` unchanged. -/
theorem Config_never_mutated :
    (∀ (a : AutomatedDevOpsPipelineIntegrator σ Src Ctx Err) (w : σ),
      (Run a w).2.self = a ∧ (Run a w).2.self.Config = a.Config) ∧
    (∀ (f : ClientFactories σ Src Ctx Err) (config : Config) (w w1 : σ)
      (integrator : AutomatedDevOpsPipelineIntegrator σ Src Ctx Err),
      NewAutomatedDevOpsPipelineIntegrator f config w = (Except.ok integrator, w1) →
        integrator.Config = config) := by
  refine ⟨fun a w => ⟨Run_self a w, by rw [Run_self a w]⟩, ?_⟩
  intro f config w w1 integrator h
  unfold NewAutomatedDevOpsPipelineIntegrator at h
  simp only at h
  split at h
  · cases h
  · split at h
    · cases h
    · split at h
      · cases h
      · cases h
        rfl

/-- Witness of C9: the constructor with succeeding client constructors returns
the scenario integrator, whose configuration is the given one, before and after
a failing run. -/
theorem Config_never_mutated_witness :
    NewAutomatedDevOpsPipelineIntegrator stubFactories scenarioConfig 0 =
      (Except.ok scenarioOk, 3) ∧
    scenarioOk.Config = scenarioConfig ∧
    (Run scenarioQuota 0).1 = some "quota exceeded" ∧
    (Run scenarioQuota 0).2.self.Config = scenarioQuota.Config :=
  ⟨rfl, Config_never_mutated.2 stubFactories scenarioConfig 0 3 scenarioOk rfl, by decide,
    (Config_never_mutated.1 scenarioQuota 0).2⟩

/-- C10: `Run` ignores the cluster URL.  Two integrators with the same
clients whose configurations agree on the repository URL, the branch, the image
name and the deployments (and so differ at most in `Kubernetes.ClusterURL`), run
in the same state of the outside world, return the same result and make the same
collaborator calls with the same arguments, in the same order. -/
theorem Run_ignores_cluster_url (a₁ a₂ : AutomatedDevOpsPipelineIntegrator σ Src Ctx Err) (w : σ)
    (hg : a₁.GitClient = a₂.GitClient) (hd : a₁.DockerClient = a₂.DockerClient)
    (hk : a₁.KubernetesClient = a₂.KubernetesClient)
    (hurl : a₁.Config.GitRepoURL = a₂.Config.GitRepoURL)
    (hbranch : a₁.Config.GitBranch = a₂.Config.GitBranch)
    (himage : a₁.Config.DockerImage = a₂.Config.DockerImage)
    (hdeps : a₁.Config.Kubernetes.Deployments = a₂.Config.Kubernetes.Deployments) :
    (Run a₁ w).1 = (Run a₂ w).1 ∧ (Run a₁ w).2.calls = (Run a₂ w).2.calls := by
  have hf : fetchResp a₁ w = fetchResp a₂ w := by
    simp only [fetchResp, hg, hurl, hbranch]
  have hb : buildResp a₁ w = buildResp a₂ w := by
    simp only [buildResp, hf, hd, himage]
  have hp : pushResp a₁ w = pushResp a₂ w := by
    simp only [pushResp, hb, hd, himage]
  have hr : deployResps a₁ w = deployResps a₂ w := by
    simp only [deployResps, hp, hk, himage, hdeps]
  have hpre : preDeployCalls a₁ w = preDeployCalls a₂ w := by
    simp only [preDeployCalls, hf, hb, hurl, hbranch, himage]
  rcases succeed_or_first_failure a₁ w with h | ⟨p, e, h⟩
  · have h2 : AllSucceed a₂ w := by
      simpa only [AllSucceed, hf, hb, hp, hr] using h
    obtain ⟨x1, _, x3⟩ := Run_all_succeed a₁ w h
    obtain ⟨y1, _, y3⟩ := Run_all_succeed a₂ w h2
    exact ⟨x1.trans y1.symm, by rw [x3, y3, hpre, himage, hdeps]⟩
  · cases p with
    | fetch =>
      have h2 : (fetchResp a₂ w).1.2 = some e := by rw [← hf]; exact h
      obtain ⟨x1, _, x3⟩ := Run_fetch_fail a₁ w e h
      obtain ⟨y1, _, y3⟩ := Run_fetch_fail a₂ w e h2
      exact ⟨x1.trans y1.symm, by rw [x3, y3, hurl, hbranch]⟩
    | build =>
      obtain ⟨x1, _, x3⟩ := Run_build_fail a₁ w e h.1 h.2
      obtain ⟨y1, _, y3⟩ := Run_build_fail a₂ w e (by rw [← hf]; exact h.1)
        (by rw [← hb]; exact h.2)
      exact ⟨x1.trans y1.symm, by rw [x3, y3, hurl, hbranch, hf, himage]⟩
    | push =>
      obtain ⟨x1, _, x3⟩ := Run_push_fail a₁ w e h.1 h.2.1 h.2.2
      obtain ⟨y1, _, y3⟩ := Run_push_fail a₂ w e (by rw [← hf]; exact h.1)
        (by rw [← hb]; exact h.2.1) (by rw [← hp]; exact h.2.2)
      exact ⟨x1.trans y1.symm, by rw [x3, y3, hpre]⟩
    | deploy i =>
      have hpre2 : PreDeployOk a₂ w := by
        simpa only [PreDeployOk, hf, hb, hp] using h.1
      have hd2 : FirstDeployFailure a₂ w i e := by
        simpa only [FirstDeployFailure, hr] using h.2
      obtain ⟨x1, _, x3⟩ := Run_deploy_fail a₁ w i e h.1 h.2
      obtain ⟨y1, _, y3⟩ := Run_deploy_fail a₂ w i e hpre2 hd2
      exact ⟨x1.trans y1.symm, by rw [x3, y3, hpre, himage, hdeps]⟩

/-- Witness of C10: the scenario with the deploy of `a` failing, run with the
configured cluster URL and with an empty one. -/
theorem Run_ignores_cluster_url_witness :
    scenarioQuota.Config.Kubernetes.ClusterURL ≠ scenarioOtherCluster.Config.Kubernetes.ClusterURL ∧
    (Run scenarioQuota 0).1 = (Run scenarioOtherCluster 0).1 ∧
    (Run scenarioQuota 0).2.calls = (Run scenarioOtherCluster 0).2.calls :=
  ⟨by decide,
    Run_ignores_cluster_url scenarioQuota scenarioOtherCluster 0 rfl rfl rfl rfl rfl rfl rfl⟩

end Claims

end Pipeline
